import Mathlib

/-!
Shallow embedding of `src/io_block.py`: an I/O capture utility with three
classes, `StdCapture` (per-channel redirector), `IOManager` (pair
coordinator) and `IOCapture` (session facade).

The process-wide mutable state (`sys.stdout`, `sys.stderr`, the live
`StringIO` buffers and the real streams they replace) is modelled by an
explicit `World` record threaded through every operation.  Python object
identity is modelled by `Nat` ids: a channel target is either a real
stream (identified by an id, with a log of text delivered to it) or a
buffer id into the world's buffer heap.  Exceptions are modelled with
`Except` / an explicit error component; each raise site in the source is
given its own constructor, named after the spec's error taxonomy
(`AlreadyCapturing`, `NoActiveSession`, `InvalidChannelIdentity`) where
the spec names it, and after the Python exception class otherwise.
-/

/-- A value that `sys.stdout` / `sys.stderr` can hold: either a real
stream (identified by id) or a `StringIO` buffer (identified by id). -/
inductive Tgt where
  | real (id : Nat)
  | buffer (id : Nat)
deriving DecidableEq, Repr

/-- Errors.  `alreadyCapturing` / `noActiveSession` are the two
`assert self._capture is ...` sites in `IOCapture`;
`invalidChannelIdentity` is `assert fd in (1, 2)` in `StdCapture.__init__`;
`attributeError` is the null-reference failure of `None.suspend()`;
`valueError` is an operation on a closed `StringIO`;
`userError` is an exception raised by the caller's unit of work. -/
inductive Exc where
  | alreadyCapturing
  | noActiveSession
  | invalidChannelIdentity
  | attributeError
  | valueError
  | userError
deriving DecidableEq, Repr

/-- The process-wide state: the live targets of `sys.stdout` and
`sys.stderr`, the heap of `StringIO` buffers (contents and closed flag,
by id), the text delivered so far to each real stream (by id), and the
next fresh buffer id. -/
structure World where
  sysOut : Tgt
  sysErr : Tgt
  bufContent : Nat → String
  bufClosed : Nat → Bool
  realContent : Nat → String
  nextBuf : Nat

/-- `sys_io_name = {0: "stdin", 1: "stdout", 2: "stderr"}`. -/
def sys_io_name (fd : Nat) : String :=
  if fd = 0 then "stdin" else if fd = 1 then "stdout" else if fd = 2 then "stderr" else ""

/-- `getattr(sys, name)` for the two channels this program redirects. -/
def World.getAttr (w : World) (name : String) : Tgt :=
  if name = "stdout" then w.sysOut else w.sysErr

/-- `setattr(sys, name, t)` for the two channels this program redirects;
any other name leaves the modelled state unchanged. -/
def World.setAttr (w : World) (name : String) (t : Tgt) : World :=
  if name = "stdout" then { w with sysOut := t }
  else if name = "stderr" then { w with sysErr := t }
  else w

/-- Writing text to the object currently bound to `sys.<name>`: appended
to the real stream's log if it is a real stream, appended to the buffer
if it is an open buffer, `ValueError` if the buffer is closed. -/
def World.writeStd (w : World) (name : String) (s : String) : Except Exc World :=
  match w.getAttr name with
  | Tgt.real r =>
      .ok { w with realContent := fun i => if i = r then w.realContent i ++ s else w.realContent i }
  | Tgt.buffer b =>
      if w.bufClosed b then .error .valueError
      else .ok { w with bufContent := fun i => if i = b then w.bufContent i ++ s else w.bufContent i }

/-- A write issued to file descriptor `fd`s channel (`print` writes to
`sys.stdout`, i.e. fd 1; `sys.stderr.write` is fd 2). -/
def World.writeChan (w : World) (fd : Nat) (s : String) : Except Exc World :=
  w.writeStd (sys_io_name fd) s

/-- `class StdCapture`: `name` and `_old` are set in `__init__` and never
reassigned; `tmpBuf` is the id of the private `tmp_io` buffer. -/
structure StdCapture where
  name : String
  old : Tgt
  tmpBuf : Nat
deriving DecidableEq, Repr

/-- `StdCapture.__init__(fd)`: asserts `fd in (1, 2)`, captures the
channel's current target as `self._old`, and allocates a fresh empty
open buffer as `self.tmp_io`. -/
def StdCapture.init (fd : Nat) (w : World) : Except Exc (StdCapture × World) :=
  if fd = 1 ∨ fd = 2 then
    let b := w.nextBuf
    .ok (⟨sys_io_name fd, w.getAttr (sys_io_name fd), b⟩,
      { w with
        bufContent := fun i => if i = b then "" else w.bufContent i,
        bufClosed := fun i => if i = b then false else w.bufClosed i,
        nextBuf := b + 1 })
  else .error .invalidChannelIdentity

/-- `StdCapture.start`: `setattr(sys, self.name, self.tmp_io)`. -/
def StdCapture.start (sc : StdCapture) (w : World) : World :=
  w.setAttr sc.name (Tgt.buffer sc.tmpBuf)

/-- `StdCapture.finish`: restore `self._old` and close the buffer. -/
def StdCapture.finish (sc : StdCapture) (w : World) : World :=
  let w1 := w.setAttr sc.name sc.old
  { w1 with bufClosed := fun i => if i = sc.tmpBuf then true else w1.bufClosed i }

/-- `StdCapture.suspend`: `setattr(sys, self.name, self._old)`. -/
def StdCapture.suspend (sc : StdCapture) (w : World) : World :=
  w.setAttr sc.name sc.old

/-- `StdCapture.resume`: `setattr(sys, self.name, self.tmp_io)`. -/
def StdCapture.resume (sc : StdCapture) (w : World) : World :=
  w.setAttr sc.name (Tgt.buffer sc.tmpBuf)

/-- `StdCapture.snap`: drain the buffer — return its full contents and
reset it to empty.  `seek(0)` on a closed `StringIO` raises `ValueError`
before anything is mutated. -/
def StdCapture.snap (sc : StdCapture) (w : World) : Except Exc (String × World) :=
  if w.bufClosed sc.tmpBuf then .error .valueError
  else .ok (w.bufContent sc.tmpBuf,
    { w with bufContent := fun i => if i = sc.tmpBuf then "" else w.bufContent i })

/-- `class IOManager`: the pair of redirectors. -/
structure IOManager where
  out : StdCapture
  err : StdCapture
deriving DecidableEq, Repr

/-- `IOManager.start`: out first, then err. -/
def IOManager.start (m : IOManager) (w : World) : World :=
  m.err.start (m.out.start w)

/-- `IOManager.finish`: out first, then err. -/
def IOManager.finish (m : IOManager) (w : World) : World :=
  m.err.finish (m.out.finish w)

/-- `IOManager.suspend`: out first, then err. -/
def IOManager.suspend (m : IOManager) (w : World) : World :=
  m.err.suspend (m.out.suspend w)

/-- `IOManager.resume`: out first, then err. -/
def IOManager.resume (m : IOManager) (w : World) : World :=
  m.err.resume (m.out.resume w)

/-- `IOManager.read`: `(self._out.snap(), self._err.snap())`. -/
def IOManager.read (m : IOManager) (w : World) : Except Exc ((String × String) × World) :=
  match m.out.snap w with
  | .error e => .error e
  | .ok (out, w1) =>
      match m.err.snap w1 with
      | .error e => .error e
      | .ok (err, w2) => .ok ((out, err), w2)

/-- `class IOCapture`: the facade; `_capture` is `Optional[IOManager]`. -/
structure IOCapture where
  mgr : Option IOManager
deriving DecidableEq, Repr

/-- `IOCapture.start_capturing`: `assert self._capture is None`, then
build `IOManager(out=StdCapture(1), err=StdCapture(2))` and `start()` it. -/
def IOCapture.start_capturing (io : IOCapture) (w : World) : Except Exc (IOCapture × World) :=
  match io.mgr with
  | some _ => .error .alreadyCapturing
  | none =>
      match StdCapture.init 1 w with
      | .error e => .error e
      | .ok (out, w1) =>
          match StdCapture.init 2 w1 with
          | .error e => .error e
          | .ok (err, w2) =>
              let m : IOManager := ⟨out, err⟩
              .ok (⟨some m⟩, m.start w2)

/-- `IOCapture.stop_capturing`: no-op when no session; otherwise finish
the manager and clear the reference. -/
def IOCapture.stop_capturing (io : IOCapture) (w : World) : IOCapture × World :=
  match io.mgr with
  | none => (io, w)
  | some m => (⟨none⟩, m.finish w)

/-- `IOCapture.resume_capture`: no-op when no session. -/
def IOCapture.resume_capture (io : IOCapture) (w : World) : World :=
  match io.mgr with
  | none => w
  | some m => m.resume w

/-- `IOCapture.read_capture`: `assert self._capture is not None`, then
`return self._capture.read()`. -/
def IOCapture.read_capture (io : IOCapture) (w : World) : Except Exc ((String × String) × World) :=
  match io.mgr with
  | none => .error .noActiveSession
  | some m => m.read w

/-- `IOCapture.suspend_capture`: `self._capture.suspend()` with no guard;
`None.suspend()` is an `AttributeError`. -/
def IOCapture.suspend_capture (io : IOCapture) (w : World) : Except Exc World :=
  match io.mgr with
  | none => .error .attributeError
  | some m => .ok (m.suspend w)

/-- The caller-supplied sink `out_buf : dict`. -/
abbrev Dict := String → Option String

/-- `d[k] = v`. -/
def dictInsert (d : Dict) (k v : String) : Dict :=
  fun q => if q = k then some v else d q

/-- One step of the caller's unit of work inside a scope: a write to a
channel, or raising an exception. -/
inductive Act where
  | write (fd : Nat) (s : String)
  | fail
deriving DecidableEq, Repr

/-- Run the unit of work: perform the writes in order against the live
channel targets; stop at the first exception, returning the state at the
point of the raise. -/
def runWork : List Act → World → World × Option Exc
  | [], w => (w, none)
  | Act.write fd s :: rest, w =>
      match w.writeChan fd s with
      | .ok w1 => runWork rest w1
      | .error e => (w, some e)
  | Act.fail :: _, w => (w, some .userError)

/-- The outcome of the scoped-capture context manager: the facade, the
sink, the world, and the exception that propagated to the caller (if
any). -/
structure CapResult where
  self : IOCapture
  out_buf : Dict
  world : World
  exc : Option Exc

/-- `IOCapture.capture(out_buf)` as a context manager around a unit of
work: `resume_capture()`; run the work; `finally: suspend_capture()`;
then — only when neither the work nor the suspend raised — read and
populate `out_buf["out"]` / `out_buf["err"]`.  An exception from the
`finally` clause replaces the work's exception, as in Python. -/
def IOCapture.capture (io : IOCapture) (out_buf : Dict) (work : List Act) (w : World) :
    CapResult :=
  let w1 := io.resume_capture w
  let we := runWork work w1
  match io.suspend_capture we.1 with
  | .error e => ⟨io, out_buf, we.1, some e⟩
  | .ok w3 =>
      match we.2 with
      | some e => ⟨io, out_buf, w3, some e⟩
      | none =>
          match io.read_capture w3 with
          | .error e => ⟨io, out_buf, w3, some e⟩
          | .ok ((out, err), w4) =>
              ⟨io, dictInsert (dictInsert out_buf "out" out) "err" err, w4, none⟩

/-- Concatenation of the texts the work writes to fd 1 (stdout). -/
def outWrites : List Act → String
  | [] => ""
  | Act.write fd s :: rest => (if fd = 1 then s else "") ++ outWrites rest
  | Act.fail :: rest => outWrites rest

/-- Concatenation of the texts the work writes to fd 2 (stderr). -/
def errWrites : List Act → String
  | [] => ""
  | Act.write fd s :: rest => (if fd = 2 then s else "") ++ errWrites rest
  | Act.fail :: rest => errWrites rest

/-- One step is a write to one of the two standard channels. -/
def isStdWrite : Act → Bool
  | Act.write fd _ => fd == 1 || fd == 2
  | Act.fail => false

/-- The work consists solely of writes to the two standard channels. -/
def writesOnly (acts : List Act) : Bool :=
  acts.all isStdWrite

/-- Extract the success value of an `Except`, with a fallback. -/
def getOk {α : Type} (x : Except Exc α) (d : α) : α :=
  match x with
  | .ok a => a
  | .error _ => d

/-- A concrete initial world: `sys.stdout` is real stream 0, `sys.stderr`
is real stream 1, no buffers allocated yet. -/
def w0demo : World :=
  ⟨Tgt.real 0, Tgt.real 1, fun _ => "", fun _ => false, fun _ => "", 0⟩

/-- An empty sink. -/
def demoDict : Dict := fun _ => none

/-- The writes the source's `test_capture` issues inside its scope. -/
def demoWork : List Act :=
  [Act.write 1 "hello\n", Act.write 1 "world\n", Act.write 2 "hello world again\n"]

/-- The (facade, world) pair right after `start_capturing` on a fresh
facade; `start_capturing` cannot fail from the fresh state. -/
def startSession (w : World) : IOCapture × World :=
  match IOCapture.start_capturing ⟨none⟩ w with
  | .ok p => p
  | .error _ => (⟨none⟩, w)

/-- The manager a fresh session built over `w0demo` holds: stdout
redirected away from real stream 0 into buffer 0, stderr away from real
stream 1 into buffer 1. -/
def mdemo : IOManager :=
  ⟨⟨"stdout", Tgt.real 0, 0⟩, ⟨"stderr", Tgt.real 1, 1⟩⟩

/-- A unit of work that writes and then raises. -/
def demoFailWork : List Act :=
  [Act.write 1 "boom", Act.fail]

/-- A mid-session world: both channels buffered with some captured text
already in the two open buffers. -/
def wdemo : World :=
  ⟨Tgt.buffer 0, Tgt.buffer 1,
    fun i => if i = 0 then "hello\n" else if i = 1 then "oops\n" else "",
    fun _ => false, fun _ => "", 2⟩

/-- Fallback values for `getOk` at the demo types. -/
def scdflt : StdCapture × World := (⟨"", Tgt.real 0, 0⟩, w0demo)

/-- Helper: a writes-only unit of work run while both channels point at
two distinct open buffers `a` (stdout) and `b` (stderr) raises nothing,
appends exactly its stdout-writes to `a` and its stderr-writes to `b`,
and changes neither the live targets nor the closed flags. -/
theorem runWork_writes (acts : List Act) (w : World) (a b : Nat)
    (hab : a ≠ b)
    (ha : w.sysOut = Tgt.buffer a) (hb : w.sysErr = Tgt.buffer b)
    (hca : w.bufClosed a = false) (hcb : w.bufClosed b = false)
    (hw : writesOnly acts = true) :
    (runWork acts w).2 = none ∧
    (runWork acts w).1.sysOut = w.sysOut ∧
    (runWork acts w).1.sysErr = w.sysErr ∧
    (runWork acts w).1.bufClosed = w.bufClosed ∧
    (runWork acts w).1.bufContent a = w.bufContent a ++ outWrites acts ∧
    (runWork acts w).1.bufContent b = w.bufContent b ++ errWrites acts := by
  induction acts generalizing w with
  | nil =>
      simp [runWork, outWrites, errWrites, String.append_empty]
  | cons act rest ih =>
      cases act with
      | fail => simp [writesOnly, isStdWrite] at hw
      | write fd s =>
          rw [writesOnly, List.all_cons, Bool.and_eq_true] at hw
          obtain ⟨hfd, hrest⟩ := hw
          rw [isStdWrite] at hfd
          simp only [Bool.or_eq_true, beq_iff_eq] at hfd
          rcases hfd with rfl | rfl
          · have hstep : w.writeChan 1 s = Except.ok
                { w with bufContent :=
                    fun i => if i = a then w.bufContent i ++ s else w.bufContent i } := by
              simp [World.writeChan, World.writeStd, sys_io_name, World.getAttr, ha, hca]
            have hi := ih
              { w with bufContent :=
                  fun i => if i = a then w.bufContent i ++ s else w.bufContent i }
              ha hb hca hcb hrest
            simp only [runWork, hstep]
            refine ⟨hi.1, hi.2.1, hi.2.2.1, hi.2.2.2.1, ?_, ?_⟩
            · rw [hi.2.2.2.2.1]
              simp [outWrites, String.append_assoc]
            · rw [hi.2.2.2.2.2]
              simp [errWrites, hab.symm, String.empty_append]
          · have hstep : w.writeChan 2 s = Except.ok
                { w with bufContent :=
                    fun i => if i = b then w.bufContent i ++ s else w.bufContent i } := by
              simp [World.writeChan, World.writeStd, sys_io_name, World.getAttr, hb, hcb]
            have hi := ih
              { w with bufContent :=
                  fun i => if i = b then w.bufContent i ++ s else w.bufContent i }
              ha hb hca hcb hrest
            simp only [runWork, hstep]
            refine ⟨hi.1, hi.2.1, hi.2.2.1, hi.2.2.2.1, ?_, ?_⟩
            · rw [hi.2.2.2.2.1]
              simp [outWrites, hab, String.empty_append]
            · rw [hi.2.2.2.2.2]
              simp [errWrites, String.append_assoc]

/-- Helper: running the scoped capture on an active session whose two
redirectors target the standard names and two distinct open empty
buffers populates the sink with exactly the stdout-writes under `"out"`
and the stderr-writes under `"err"`, raising nothing. -/
theorem capture_fresh_session (mm : IOManager) (d : Dict) (work : List Act) (w : World)
    (hn1 : mm.out.name = "stdout") (hn2 : mm.err.name = "stderr")
    (hab : mm.out.tmpBuf ≠ mm.err.tmpBuf)
    (hca : w.bufClosed mm.out.tmpBuf = false) (hcb : w.bufClosed mm.err.tmpBuf = false)
    (hea : w.bufContent mm.out.tmpBuf = "") (heb : w.bufContent mm.err.tmpBuf = "")
    (hw : writesOnly work = true) :
    (IOCapture.capture ⟨some mm⟩ d work w).exc = none ∧
    (IOCapture.capture ⟨some mm⟩ d work w).out_buf "out" = some (outWrites work) ∧
    (IOCapture.capture ⟨some mm⟩ d work w).out_buf "err" = some (errWrites work) := by
  obtain ⟨⟨nm1, old1, a⟩, ⟨nm2, old2, b⟩⟩ := mm
  simp only at hn1 hn2 hab hca hcb hea heb
  subst hn1 hn2
  have hrw := runWork_writes work { w with sysOut := Tgt.buffer a, sysErr := Tgt.buffer b }
    a b hab rfl rfl hca hcb hw
  obtain ⟨hx, hso, hse, hclosed, hcout, hcerr⟩ := hrw
  have hbca : (runWork work
      { w with sysOut := Tgt.buffer a, sysErr := Tgt.buffer b }).1.bufClosed a = false := by
    rw [hclosed]; exact hca
  have hbcb : (runWork work
      { w with sysOut := Tgt.buffer a, sysErr := Tgt.buffer b }).1.bufClosed b = false := by
    rw [hclosed]; exact hcb
  have hcout2 : (runWork work
      { w with sysOut := Tgt.buffer a, sysErr := Tgt.buffer b }).1.bufContent a
      = outWrites work := by
    rw [hcout]
    show w.bufContent a ++ outWrites work = outWrites work
    rw [hea, String.empty_append]
  have hcerr2 : (runWork work
      { w with sysOut := Tgt.buffer a, sysErr := Tgt.buffer b }).1.bufContent b
      = errWrites work := by
    rw [hcerr]
    show w.bufContent b ++ errWrites work = errWrites work
    rw [heb, String.empty_append]
  simp [IOCapture.capture, IOCapture.resume_capture, IOCapture.suspend_capture,
    IOCapture.read_capture, IOManager.resume, IOManager.suspend, IOManager.read,
    StdCapture.resume, StdCapture.suspend, StdCapture.snap, World.setAttr,
    dictInsert, hx, hbca, hbcb, hcout2, hcerr2, Ne.symm hab]

/-- C1: for every sequence of writes W1 to the output channel and W2 to
the error channel issued strictly inside one scoped capture of a fresh
session, the sink populated at the end of the scope holds under `"out"`
exactly the concatenation of W1 and under `"err"` exactly the
concatenation of W2, verbatim, and the scope raises nothing. -/
theorem c1_scoped_capture_exact (w0 : World) (d : Dict) (work : List Act)
    (io1 : IOCapture) (w1 : World)
    (hstart : IOCapture.start_capturing ⟨none⟩ w0 = Except.ok (io1, w1))
    (hw : writesOnly work = true) :
    (IOCapture.capture io1 d work w1).exc = none ∧
    (IOCapture.capture io1 d work w1).out_buf "out" = some (outWrites work) ∧
    (IOCapture.capture io1 d work w1).out_buf "err" = some (errWrites work) := by
  have hs : IOCapture.start_capturing ⟨none⟩ w0 = Except.ok
      (⟨some ⟨⟨"stdout", w0.sysOut, w0.nextBuf⟩, ⟨"stderr", w0.sysErr, w0.nextBuf + 1⟩⟩⟩,
        { sysOut := Tgt.buffer w0.nextBuf
          sysErr := Tgt.buffer (w0.nextBuf + 1)
          bufContent := fun i =>
            if i = w0.nextBuf + 1 then "" else if i = w0.nextBuf then "" else w0.bufContent i
          bufClosed := fun i =>
            if i = w0.nextBuf + 1 then false else if i = w0.nextBuf then false else w0.bufClosed i
          realContent := w0.realContent
          nextBuf := w0.nextBuf + 1 + 1 }) := rfl
  rw [hstart] at hs
  simp only [Except.ok.injEq, Prod.mk.injEq] at hs
  obtain ⟨h1, h2⟩ := hs
  subst h1
  subst h2
  exact capture_fresh_session _ d work _ rfl rfl
    (Nat.ne_of_lt (Nat.lt_succ_self _)) (by simp) (by simp) (by simp) (by simp) hw

/-- Witness for C1 at the source's own demo scenario: start a fresh
session over `w0demo` and run the three writes of `test_capture`. -/
theorem c1_scoped_capture_exact_witness :
    writesOnly demoWork = true ∧
    (IOCapture.capture (startSession w0demo).1 demoDict demoWork
      (startSession w0demo).2).exc = none ∧
    (IOCapture.capture (startSession w0demo).1 demoDict demoWork
      (startSession w0demo).2).out_buf "out" = some (outWrites demoWork) ∧
    (IOCapture.capture (startSession w0demo).1 demoDict demoWork
      (startSession w0demo).2).out_buf "err" = some (errWrites demoWork) :=
  ⟨by decide,
    c1_scoped_capture_exact w0demo demoDict demoWork
      (startSession w0demo).1 (startSession w0demo).2 rfl (by decide)⟩

/-- C2: if the unit of work raises inside a scoped capture on an active
session, the suspend in the `finally` still runs (the resulting world is
exactly the suspended end-of-work world), the drain-and-populate does
not run (the caller's sink comes back unchanged), and the failure
propagates to the caller. -/
theorem c2_capture_failure (io : IOCapture) (m : IOManager) (d : Dict)
    (work : List Act) (w : World) (e : Exc)
    (hm : io.mgr = some m)
    (hrun : (runWork work (io.resume_capture w)).2 = some e) :
    IOCapture.capture io d work w =
      ⟨io, d, m.suspend (runWork work (io.resume_capture w)).1, some e⟩ := by
  simp only [IOCapture.capture, IOCapture.suspend_capture, hm, hrun]

/-- Witness for C2: a work unit that writes and then raises, inside the
fresh demo session. -/
theorem c2_capture_failure_witness :
    (startSession w0demo).1.mgr = some mdemo ∧
    (runWork demoFailWork
      ((startSession w0demo).1.resume_capture (startSession w0demo).2)).2
      = some Exc.userError ∧
    IOCapture.capture (startSession w0demo).1 demoDict demoFailWork (startSession w0demo).2 =
      ⟨(startSession w0demo).1, demoDict,
        mdemo.suspend (runWork demoFailWork
          ((startSession w0demo).1.resume_capture (startSession w0demo).2)).1,
        some Exc.userError⟩ :=
  ⟨rfl, rfl,
    c2_capture_failure (startSession w0demo).1 mdemo demoDict demoFailWork
      (startSession w0demo).2 Exc.userError rfl rfl⟩

/-- Helper: `IOManager.read` on two distinct open buffers returns both
contents and leaves both buffers empty. -/
theorem read_ok (m : IOManager) (w : World)
    (hab : m.out.tmpBuf ≠ m.err.tmpBuf)
    (hoa : w.bufClosed m.out.tmpBuf = false)
    (hob : w.bufClosed m.err.tmpBuf = false) :
    m.read w = Except.ok ((w.bufContent m.out.tmpBuf, w.bufContent m.err.tmpBuf),
      { w with bufContent := fun i =>
          if i = m.err.tmpBuf then "" else if i = m.out.tmpBuf then "" else w.bufContent i }) := by
  obtain ⟨⟨nm1, o1, a⟩, ⟨nm2, o2, b⟩⟩ := m
  simp only at hab hoa hob
  simp [IOManager.read, StdCapture.snap, hoa, hob, Ne.symm hab]

/-- C3: drain is destructive — in an active session, the first
`read_capture` returns the full buffered content of both channels and
leaves both buffers empty, and a second `read_capture` with no
intervening writes returns the empty string for both channels. -/
theorem c3_drain_destructive (m : IOManager) (w : World)
    (hab : m.out.tmpBuf ≠ m.err.tmpBuf)
    (hoa : w.bufClosed m.out.tmpBuf = false)
    (hob : w.bufClosed m.err.tmpBuf = false) :
    ∃ w1, IOCapture.read_capture ⟨some m⟩ w
        = Except.ok ((w.bufContent m.out.tmpBuf, w.bufContent m.err.tmpBuf), w1) ∧
      w1.bufContent m.out.tmpBuf = "" ∧ w1.bufContent m.err.tmpBuf = "" ∧
      ∃ w2, IOCapture.read_capture ⟨some m⟩ w1 = Except.ok (("", ""), w2) := by
  refine ⟨{ w with bufContent := fun i =>
      if i = m.err.tmpBuf then "" else if i = m.out.tmpBuf then "" else w.bufContent i },
    read_ok m w hab hoa hob, by simp [hab], by simp, ?_⟩
  have h2 := read_ok m { w with bufContent := fun i =>
      if i = m.err.tmpBuf then "" else if i = m.out.tmpBuf then "" else w.bufContent i }
    hab hoa hob
  have hs1 : ({ w with bufContent := fun i =>
      if i = m.err.tmpBuf then "" else if i = m.out.tmpBuf then "" else w.bufContent i }
      : World).bufContent m.out.tmpBuf = "" := by simp [hab]
  have hs2 : ({ w with bufContent := fun i =>
      if i = m.err.tmpBuf then "" else if i = m.out.tmpBuf then "" else w.bufContent i }
      : World).bufContent m.err.tmpBuf = "" := by simp
  rw [hs1, hs2] at h2
  exact ⟨_, h2⟩

/-- Witness for C3 in a mid-session world holding captured text. -/
theorem c3_drain_destructive_witness :
    mdemo.out.tmpBuf ≠ mdemo.err.tmpBuf ∧
    wdemo.bufClosed mdemo.out.tmpBuf = false ∧
    wdemo.bufClosed mdemo.err.tmpBuf = false ∧
    (∃ w1, IOCapture.read_capture ⟨some mdemo⟩ wdemo
        = Except.ok ((wdemo.bufContent mdemo.out.tmpBuf, wdemo.bufContent mdemo.err.tmpBuf), w1) ∧
      w1.bufContent mdemo.out.tmpBuf = "" ∧ w1.bufContent mdemo.err.tmpBuf = "" ∧
      ∃ w2, IOCapture.read_capture ⟨some mdemo⟩ w1 = Except.ok (("", ""), w2)) :=
  ⟨by decide, rfl, rfl, c3_drain_destructive mdemo wdemo (by decide) rfl rfl⟩

/-- C4: a write issued while capture is suspended (the live channel
points at a real stream) is delivered to that real stream, leaves every
buffer untouched, and therefore does not appear in the result of any
later `read_capture`: the pair of strings a read returns is the same
with or without the suspended write. -/
theorem c4_suspended_write (io : IOCapture) (m : IOManager) (w : World)
    (fd : Nat) (r : Nat) (s : String) (wp : World)
    (hm : io.mgr = some m)
    (hreal : w.getAttr (sys_io_name fd) = Tgt.real r)
    (hw : w.writeChan fd s = Except.ok wp) :
    wp.realContent r = w.realContent r ++ s ∧
    wp.bufContent = w.bufContent ∧
    Except.map (fun x => x.1) (io.read_capture wp)
      = Except.map (fun x => x.1) (io.read_capture w) := by
  rw [World.writeChan, World.writeStd, hreal] at hw
  simp only [Except.ok.injEq] at hw
  subst hw
  refine ⟨by simp, rfl, ?_⟩
  cases hca : w.bufClosed m.out.tmpBuf <;>
    cases hcb : w.bufClosed m.err.tmpBuf <;>
      simp [IOCapture.read_capture, hm, IOManager.read, StdCapture.snap, hca, hcb, Except.map]

/-- A suspended-session world: both channels point back at the real
streams while the session's two buffers stay alive with captured text. -/
def wsusdemo : World :=
  ⟨Tgt.real 0, Tgt.real 1,
    fun i => if i = 0 then "hello\n" else if i = 1 then "oops\n" else "",
    fun _ => false, fun _ => "", 2⟩

/-- The world after writing to stdout while `wsusdemo` is suspended. -/
def wpdemo : World := getOk (wsusdemo.writeChan 1 "to console\n") w0demo

/-- Witness for C4: a stdout write in the suspended demo session. -/
theorem c4_suspended_write_witness :
    ((⟨some mdemo⟩ : IOCapture).mgr = some mdemo) ∧
    wsusdemo.getAttr (sys_io_name 1) = Tgt.real 0 ∧
    wsusdemo.writeChan 1 "to console\n" = Except.ok wpdemo ∧
    (wpdemo.realContent 0 = wsusdemo.realContent 0 ++ "to console\n" ∧
      wpdemo.bufContent = wsusdemo.bufContent ∧
      Except.map (fun x => x.1) ((⟨some mdemo⟩ : IOCapture).read_capture wpdemo)
        = Except.map (fun x => x.1) ((⟨some mdemo⟩ : IOCapture).read_capture wsusdemo)) :=
  ⟨rfl, rfl, rfl,
    c4_suspended_write ⟨some mdemo⟩ mdemo wsusdemo 1 0 "to console\n" wpdemo rfl rfl rfl⟩

/-- C5: `start_capturing` while a session is already active fails with
`AlreadyCapturing`; the assert fires before anything is built or
redirected, so no new facade state or channel state is produced — the
caller keeps the unchanged facade and world. -/
theorem c5_start_twice (m : IOManager) (w : World) :
    IOCapture.start_capturing ⟨some m⟩ w = Except.error Exc.alreadyCapturing := rfl

/-- C6: `read_capture` with no active session fails with
`NoActiveSession` (the assert fires before anything is drained, so no
state is produced); with an active session it returns the pair of texts
drained from the two channel buffers. -/
theorem c6_read_capture_precondition (w : World) :
    IOCapture.read_capture ⟨none⟩ w = Except.error Exc.noActiveSession ∧
    ∀ m : IOManager, m.out.tmpBuf ≠ m.err.tmpBuf →
      w.bufClosed m.out.tmpBuf = false → w.bufClosed m.err.tmpBuf = false →
      ∃ w1, IOCapture.read_capture ⟨some m⟩ w
        = Except.ok ((w.bufContent m.out.tmpBuf, w.bufContent m.err.tmpBuf), w1) :=
  ⟨rfl, fun m hab hoa hob => ⟨_, read_ok m w hab hoa hob⟩⟩

/-- Witness for C6 at the demo session. -/
theorem c6_read_capture_precondition_witness :
    IOCapture.read_capture ⟨none⟩ wdemo = Except.error Exc.noActiveSession ∧
    (mdemo.out.tmpBuf ≠ mdemo.err.tmpBuf ∧
      wdemo.bufClosed mdemo.out.tmpBuf = false ∧
      wdemo.bufClosed mdemo.err.tmpBuf = false) ∧
    ∃ w1, IOCapture.read_capture ⟨some mdemo⟩ wdemo
      = Except.ok ((wdemo.bufContent mdemo.out.tmpBuf, wdemo.bufContent mdemo.err.tmpBuf), w1) :=
  ⟨(c6_read_capture_precondition wdemo).1, ⟨by decide, rfl, rfl⟩,
    (c6_read_capture_precondition wdemo).2 mdemo (by decide) rfl rfl⟩

/-- C7: `resume_capture` with no active session is a no-op on the world,
while `suspend_capture` with no active session is unguarded and fails
with the null-reference-style error (`None.suspend()`). -/
theorem c7_resume_suspend_asymmetry (w : World) :
    IOCapture.resume_capture ⟨none⟩ w = w ∧
    IOCapture.suspend_capture ⟨none⟩ w = Except.error Exc.attributeError :=
  ⟨rfl, rfl⟩

/-- C8: the real target a redirector restores on `suspend` or `finish`
is the value the process-wide channel had at the redirector's
construction time — captured once into `_old` and used verbatim from any
later world, however the live channel was reassigned in between. -/
theorem c8_real_target_frozen (fd : Nat) (w0 wa : World) (sc : StdCapture)
    (hinit : StdCapture.init fd w0 = Except.ok (sc, wa)) :
    sc.old = w0.getAttr (sys_io_name fd) ∧
    ∀ w : World,
      (sc.suspend w).getAttr (sys_io_name fd) = w0.getAttr (sys_io_name fd) ∧
      (sc.finish w).getAttr (sys_io_name fd) = w0.getAttr (sys_io_name fd) := by
  simp only [StdCapture.init] at hinit
  by_cases hfd : fd = 1 ∨ fd = 2
  · rw [if_pos hfd] at hinit
    simp only [Except.ok.injEq, Prod.mk.injEq] at hinit
    obtain ⟨h1, h2⟩ := hinit
    subst h2
    subst h1
    rcases hfd with rfl | rfl
    · exact ⟨rfl, fun w =>
        ⟨by simp [StdCapture.suspend, World.setAttr, World.getAttr, sys_io_name],
         by simp [StdCapture.finish, World.setAttr, World.getAttr, sys_io_name]⟩⟩
    · exact ⟨rfl, fun w =>
        ⟨by simp [StdCapture.suspend, World.setAttr, World.getAttr, sys_io_name],
         by simp [StdCapture.finish, World.setAttr, World.getAttr, sys_io_name]⟩⟩
  · rw [if_neg hfd] at hinit
    exact absurd hinit (by simp)

/-- The redirector a fresh session builds for stdout over `w0demo`,
with the world its construction leaves. -/
def scdemoPair : StdCapture × World := getOk (StdCapture.init 1 w0demo) scdflt

/-- A world in which something else has meanwhile reassigned the live
stdout channel to a different real stream. -/
def wadv : World := { wsusdemo with sysOut := Tgt.real 99 }

/-- Witness for C8: even from the adversarially reassigned world `wadv`,
suspend and finish restore the construction-time target of `w0demo`. -/
theorem c8_real_target_frozen_witness :
    StdCapture.init 1 w0demo = Except.ok (scdemoPair.1, scdemoPair.2) ∧
    scdemoPair.1.old = w0demo.getAttr (sys_io_name 1) ∧
    ((scdemoPair.1.suspend wadv).getAttr (sys_io_name 1) = w0demo.getAttr (sys_io_name 1) ∧
      (scdemoPair.1.finish wadv).getAttr (sys_io_name 1) = w0demo.getAttr (sys_io_name 1)) :=
  ⟨rfl, (c8_real_target_frozen 1 w0demo scdemoPair.2 scdemoPair.1 rfl).1,
    (c8_real_target_frozen 1 w0demo scdemoPair.2 scdemoPair.1 rfl).2 wadv⟩

/-- C9: within an active session, `suspend_capture` and `resume_capture`
lift the coordinator's `suspend`/`resume`; both are idempotent, the live
targets after any sequence of the two depend only on the last call
(the four composition laws), and neither call alters any buffer
contents; `resume` leaves both channels at the buffers and `suspend`
leaves both at the captured real targets. -/
theorem c9_suspend_resume_idempotent (m : IOManager) (w : World)
    (hn1 : m.out.name = "stdout") (hn2 : m.err.name = "stderr") :
    IOCapture.suspend_capture ⟨some m⟩ w = Except.ok (m.suspend w) ∧
    IOCapture.resume_capture ⟨some m⟩ w = m.resume w ∧
    m.suspend (m.suspend w) = m.suspend w ∧
    m.resume (m.resume w) = m.resume w ∧
    m.suspend (m.resume w) = m.suspend w ∧
    m.resume (m.suspend w) = m.resume w ∧
    (m.suspend w).bufContent = w.bufContent ∧
    (m.resume w).bufContent = w.bufContent ∧
    (m.resume w).sysOut = Tgt.buffer m.out.tmpBuf ∧
    (m.resume w).sysErr = Tgt.buffer m.err.tmpBuf ∧
    (m.suspend w).sysOut = m.out.old ∧
    (m.suspend w).sysErr = m.err.old := by
  obtain ⟨⟨nm1, o1, a⟩, ⟨nm2, o2, b⟩⟩ := m
  simp only at hn1 hn2
  subst hn1 hn2
  exact ⟨rfl, rfl, rfl, rfl, rfl, rfl, rfl, rfl, rfl, rfl, rfl, rfl⟩

/-- Witness for C9 at the demo session and a mid-session world. -/
theorem c9_suspend_resume_idempotent_witness :
    mdemo.out.name = "stdout" ∧ mdemo.err.name = "stderr" ∧
    (mdemo.suspend (mdemo.suspend wdemo) = mdemo.suspend wdemo ∧
      mdemo.resume (mdemo.resume wdemo) = mdemo.resume wdemo ∧
      mdemo.suspend (mdemo.resume wdemo) = mdemo.suspend wdemo ∧
      mdemo.resume (mdemo.suspend wdemo) = mdemo.resume wdemo ∧
      (mdemo.suspend wdemo).bufContent = wdemo.bufContent ∧
      (mdemo.resume wdemo).bufContent = wdemo.bufContent) :=
  ⟨rfl, rfl,
    (c9_suspend_resume_idempotent mdemo wdemo rfl rfl).2.2.1,
    (c9_suspend_resume_idempotent mdemo wdemo rfl rfl).2.2.2.1,
    (c9_suspend_resume_idempotent mdemo wdemo rfl rfl).2.2.2.2.1,
    (c9_suspend_resume_idempotent mdemo wdemo rfl rfl).2.2.2.2.2.1,
    (c9_suspend_resume_idempotent mdemo wdemo rfl rfl).2.2.2.2.2.2.1,
    (c9_suspend_resume_idempotent mdemo wdemo rfl rfl).2.2.2.2.2.2.2.1⟩

/-- C10: on successful completion of a scoped capture the sink gains
values at exactly the keys `"out"` and `"err"` (overwriting any prior
values there), and every other key maps to exactly what it mapped to
before the scope. -/
theorem c10_capture_frame (io : IOCapture) (d : Dict) (work : List Act) (w : World)
    (h : (IOCapture.capture io d work w).exc = none) :
    (∀ k, k ≠ "out" → k ≠ "err" → (IOCapture.capture io d work w).out_buf k = d k) ∧
    (∃ o, (IOCapture.capture io d work w).out_buf "out" = some o) ∧
    (∃ e, (IOCapture.capture io d work w).out_buf "err" = some e) := by
  simp only [IOCapture.capture] at h ⊢
  cases hs : io.suspend_capture (runWork work (io.resume_capture w)).1 with
  | error e => simp [hs] at h
  | ok w3 =>
      simp only [hs] at h ⊢
      cases he : (runWork work (io.resume_capture w)).2 with
      | some e => simp [he] at h
      | none =>
          simp only [he] at h ⊢
          cases hr : io.read_capture w3 with
          | error e => simp [hr] at h
          | ok p =>
              obtain ⟨⟨o, er⟩, w4⟩ := p
              simp only [hr] at h ⊢
              refine ⟨fun k hk1 hk2 => by simp [dictInsert, hk1, hk2],
                ⟨o, by simp [dictInsert]⟩, ⟨er, by simp [dictInsert]⟩⟩

/-- Witness for C10: the successful demo scope, with an untouched key. -/
theorem c10_capture_frame_witness :
    (IOCapture.capture (startSession w0demo).1 demoDict demoWork
      (startSession w0demo).2).exc = none ∧
    ((∀ k, k ≠ "out" → k ≠ "err" →
        (IOCapture.capture (startSession w0demo).1 demoDict demoWork
          (startSession w0demo).2).out_buf k = demoDict k) ∧
      (∃ o, (IOCapture.capture (startSession w0demo).1 demoDict demoWork
        (startSession w0demo).2).out_buf "out" = some o) ∧
      (∃ e, (IOCapture.capture (startSession w0demo).1 demoDict demoWork
        (startSession w0demo).2).out_buf "err" = some e)) :=
  ⟨rfl, c10_capture_frame (startSession w0demo).1 demoDict demoWork
    (startSession w0demo).2 rfl⟩

/-- Witness for C5 at the demo session. -/
theorem c5_start_twice_witness :
    IOCapture.start_capturing ⟨some mdemo⟩ wdemo = Except.error Exc.alreadyCapturing :=
  c5_start_twice mdemo wdemo

/-- Witness for C7 at a mid-session world. -/
theorem c7_resume_suspend_asymmetry_witness :
    IOCapture.resume_capture ⟨none⟩ wdemo = wdemo ∧
    IOCapture.suspend_capture ⟨none⟩ wdemo = Except.error Exc.attributeError :=
  c7_resume_suspend_asymmetry wdemo
